import Mathlib

/-!
Shallow embedding of `src/tutorial/afu_types/01_pim_ifc/dma/sw/dma.c`.

Modelling conventions:
* Machine integers are `Nat` with explicit `% 2^w` / `&&&` masks where the C code
  truncates (uint32 descriptor fields, uint32 `dev_addr`, uint32 `test_buffer_size`).
* IEEE doubles are modelled as exact rationals.  A division whose divisor is zero
  (the C code performs `x / 0.0`, producing an IEEE infinity or NaN) is modelled by
  `fdiv` returning `none`; downstream the poisoned value compares `false` against any
  finite bound, matching IEEE comparisons of NaN/+inf (all operands here are
  non-negative) with a finite constant.
* A fired `assert` kills the process; it is modelled by an outcome whose return value
  is `none` (no buffer release, no further register traffic).
* MMIO reads from the device (performance-counter samples, the post-transfer buffer
  content) are inputs of the model supplied by a `TestEnv`; MMIO writes performed by
  `send_descriptor` are recorded as an explicit `RegWrite` list.  The status poll loop
  of `dma_transfer` issues only reads and is therefore not part of the write trace.
* The OPAE library calls (`fpgaPrepareBuffer`, `fpgaGetIOAddress`, `fpgaReleaseBuffer`)
  are external collaborators; their success/failure is supplied by the `TestEnv`, and
  the model records whether the release call was reached.
Constants that live in `dma.h` (not under `src/`) are modelled from the spec and
marked as such in their doc comments.
-/

/-- dma.c line 30: size in bytes of the allocated host DMA buffer. -/
def DMA_BUFFER_SIZE : ℕ := 1024 * 1024

/-- dma.c line 32: transfer-size cap asserted in ASE (simulation) mode. -/
def TEST_BUFFER_SIZE_ASE : ℕ := 2048 * 1024

/-- dma.c line 33: transfer-size cap asserted in hardware mode. -/
def TEST_BUFFER_SIZE_HW : ℕ := 2048 * 1024

/-- Modelled from the spec: the hardware line size (`DMA_LINE_SIZE`, defined in the
missing header `dma.h`) is 64 bytes. -/
def DMA_LINE_SIZE : ℕ := 64

/-- Modelled from the spec: the minimum-bandwidth threshold (`MIN_TRPT_GBPS`, defined
in the missing header `dma.h`) is 8.2 GB/s. -/
def MIN_TRPT_GBPS : ℚ := 41 / 5

/-- Modelled from the spec: CSR register layout, in order
DFH, GUID-low, GUID-high, reserved, reserved, source-address, ...; hence the
source-address register has index 5 (`dma.h` is not under `src/`). -/
def DMA_CSR_IDX_SRC_ADDR : ℕ := 5

/-- Modelled from the spec: the 3-variant transfer-mode enum of `dma.h`, in
declaration order host-to-device, device-to-host, device-to-device. -/
inductive e_dma_mode
  | host_to_ddr
  | ddr_to_host
  | ddr_to_ddr
deriving DecidableEq

/-- Modelled from the spec: numeric value of the C enum constants (declaration
order, default C enumeration 0, 1, 2). -/
def modeVal : e_dma_mode → ℕ
  | .host_to_ddr => 0
  | .ddr_to_host => 1
  | .ddr_to_ddr => 2

/-- dma.c line 235: address mask (current hardware supports 32-bit addressing only). -/
def MASK_FOR_32BIT_ADDR : ℕ := 0xFFFFFFFF

/-- One 64-bit MMIO register write: byte address and value. -/
structure RegWrite where
  addr : ℕ
  value : ℕ
deriving DecidableEq

/-- Modelled from the spec: the fixed four-field descriptor record of `dma.h`
(source address, destination address, length in lines, control word). -/
structure dma_descriptor_t where
  src_address : ℕ
  dest_address : ℕ
  len : ℕ
  control : ℕ
deriving DecidableEq

/-- send_descriptor (dma.c lines 202-220): asserts 8-byte alignment of the MMIO
destination, then issues four 64-bit MMIO writes of the descriptor fields at
consecutive 8-byte offsets.  `dev_addr` is a uint32 in the C code, hence the
`% 2^32` arithmetic.  `none` models the assert aborting before any write. -/
def send_descriptor (mmio_dst : ℕ) (desc : dma_descriptor_t) : Option (List RegWrite) :=
  if mmio_dst % 8 ≠ 0 then none
  else
    let a0 := mmio_dst % 2 ^ 32
    let a1 := (a0 + 8) % 2 ^ 32
    let a2 := (a1 + 8) % 2 ^ 32
    let a3 := (a2 + 8) % 2 ^ 32
    some [⟨a0, desc.src_address⟩, ⟨a1, desc.dest_address⟩, ⟨a2, desc.len⟩,
          ⟨a3, desc.control⟩]

/-- dma_transfer (dma.c lines 222-282), submission phase.  The two leading asserts
check 64-byte alignment of the device source and destination addresses; a fired
assert is modelled as `([], true)`: no register write was issued and the process
aborted.  Otherwise the four-field descriptor is built (addresses masked to their
low 32 bits, `control = 0x80000000 | (mode << MODE_SHIFT)` as a uint32) and sent
twice in sequence (the `for (i=0; i<2; i++)` loop), giving the write trace
`ws ++ ws`.  The subsequent status poll loop performs only MMIO reads, so the
returned list is exactly the register-write trace issued before polling begins.
`MODE_SHIFT` lives in the missing header `dma.h`; it is a parameter `modeShift`. -/
def dma_transfer (modeShift : ℕ) (mode : e_dma_mode) (dev_src dev_dest : ℕ)
    (len : ℕ) : List RegWrite × Bool :=
  if ¬ (dev_src % 64 = 0) then ([], true)
  else if ¬ (dev_dest % 64 = 0) then ([], true)
  else
    let desc : dma_descriptor_t :=
      { src_address := dev_src &&& MASK_FOR_32BIT_ADDR
        dest_address := dev_dest &&& MASK_FOR_32BIT_ADDR
        len := len % 2 ^ 32
        control := (0x80000000 ||| (modeVal mode <<< modeShift)) % 2 ^ 32 }
    match send_descriptor (8 * DMA_CSR_IDX_SRC_ADDR) desc with
    | none => ([], true)
    | some ws => (ws ++ ws, false)

/-- dma.c line 97 (and 117): low 20 bits of a raw performance-counter sample,
the valid-cycle count. -/
def rd_src_valid_cnt (s : ℕ) : ℕ := s &&& 0xFFFFF

/-- dma.c lines 98-99 (and 118-119): bits 20..39 of a raw performance-counter
sample, the total-cycle (clock) count. -/
def rd_src_clk_cnt (s : ℕ) : ℕ := (s >>> 20) &&& 0xFFFFF

/-- Same extraction for the write-side counter sample (dma.c line 117). -/
def wr_dest_valid_cnt (s : ℕ) : ℕ := s &&& 0xFFFFF

/-- Same extraction for the write-side counter sample (dma.c lines 118-119). -/
def wr_dest_clk_cnt (s : ℕ) : ℕ := (s >>> 20) &&& 0xFFFFF

/-- IEEE double division modelled over ℚ.  A zero divisor (the unguarded
`x / 0.0` of dma.c lines 100 and 120-121) produces a non-finite IEEE value
(+inf or NaN for the non-negative operands arising here), modelled as `none`. -/
def fdiv (a b : ℚ) : Option ℚ := if b = 0 then none else some (a / b)

/-- IEEE `<` against a finite bound: a NaN/+inf value (from a zero-divisor
division of non-negative operands, possibly scaled by the non-negative
throughput constant) compares false. -/
def flt (x : Option ℚ) (c : ℚ) : Bool :=
  match x with
  | some q => decide (q < c)
  | none => false

/-- IEEE `==` against a finite constant: a NaN/+inf value compares false. -/
def feq (x : Option ℚ) (c : ℚ) : Bool :=
  match x with
  | some q => decide (q = c)
  | none => false

/-- get_bandwidth (dma.c lines 88-137).  `maxTrpt` is the throughput constant
`MAX_TRPT_BYTES` of the missing header `dma.h` (its numeric value is not given by
the spec, so it stays a parameter); `descriptor_mode` only selects log strings in
the C code.  The read-side sample is decoded and its bandwidth compared against
`MIN_TRPT_GBPS`; on violation the sentinel `-1` is returned.  Otherwise the
write-side sample is processed the same way, and finally the average of the two
bandwidths is returned.  A `none` result is the propagated non-finite IEEE value
produced by a zero total-cycle divisor. -/
def get_bandwidth (maxTrpt : ℚ) (descriptor_mode : e_dma_mode)
    (rdSample wrSample : ℕ) : Option ℚ :=
  let read_uptime := fdiv (rd_src_valid_cnt rdSample : ℚ) (rd_src_clk_cnt rdSample : ℚ)
  let read_bandwidth := Option.map (fun u => u * maxTrpt / 1000) read_uptime
  if flt read_bandwidth MIN_TRPT_GBPS then some (-1)
  else
    let write_uptime :=
      fdiv (wr_dest_valid_cnt wrSample : ℚ) (wr_dest_clk_cnt wrSample : ℚ)
    let write_bandwidth := Option.map (fun u => u * maxTrpt / 1000) write_uptime
    if flt write_bandwidth MIN_TRPT_GBPS then some (-1)
    else
      match read_bandwidth, write_bandwidth with
      | some r, some w => some ((r + w) / 2)
      | _, _ => none

/-- dma.c line 312: number of 64-bit words of the compared region. -/
def test_buffer_word_size (ts : ℕ) : ℕ := ts / 8

/-- dma.c line 308: `dma_len = ((test_buffer_size - 1) / DMA_LINE_SIZE) + 1`
computed in uint32 arithmetic (`test_buffer_size` is uint32, so `- 1` wraps). -/
def dma_len (ts : ℕ) : ℕ := ((ts + (2 ^ 32 - 1)) % 2 ^ 32) / DMA_LINE_SIZE + 1

/-- Byte `j` (little-endian, as on the x86 hosts this test runs on) of the
expected ascending 64-bit word pattern `word[i] = i` (dma.c lines 313-317). -/
def expectedByte (j : ℕ) : ℕ := ((j / 8) / 2 ^ (8 * (j % 8))) % 256

/-- dma.c line 357: `memcmp(dma_buf_ptr, expected_result, test_buffer_size) != 0`,
i.e. some byte of the first `n` buffer bytes differs from the expected pattern. -/
def memcmp_ne (buf : ℕ → ℕ) (n : ℕ) : Bool :=
  (List.range n).any (fun j => buf j != expectedByte j)

/-- Number of byte positions in the compared region that differ from the expected
ascending-pattern bytes: the spec's "number of byte-level mismatches". -/
def mismatchCount (buf : ℕ → ℕ) (n : ℕ) : ℕ :=
  (List.range n).countP (fun j => buf j != expectedByte j)

/-- Environment of one `run_basic_ddr_dma_test` invocation: the mode flags and
the behavior of the external collaborators (OPAE library and device).
`tbsJunk` is the indeterminate value the uninitialized `test_buffer_size` holds
when dma.c line 302 reads it; `finalBuf` is the byte content of the host buffer
after the DDR-to-host transfer (written by the device, hence an input). -/
structure TestEnv where
  isAse : Bool
  tbsJunk : ℕ
  transfer_size : ℕ
  allocOk : Bool
  iovaOk : Bool
  iova : ℕ
  hostMask : ℕ
  modeShift : ℕ
  maxTrpt : ℚ
  h2aRdSample : ℕ
  h2aWrSample : ℕ
  a2hRdSample : ℕ
  a2hWrSample : ℕ
  finalBuf : ℕ → ℕ

/-- Observable outcome of one `run_basic_ddr_dma_test` invocation:
`ret` is the C return value (`none` when an `assert` aborted the process),
`released` records whether `fpgaReleaseBuffer` was invoked, and `errIncr` is the
number of increments of the process-wide `s_error_count`. -/
structure TestOutcome where
  ret : Option ℤ
  released : Bool
  errIncr : ℕ
deriving DecidableEq

/-- run_basic_ddr_dma_test after the size asserts (dma.c lines 304-368):
buffer allocation (failure: `ON_ERR_GOTO` prints, bumps `s_error_count`, jumps to
`release_buf`, returns `num_errors = 0`), IOVA lookup (same failure path), the
host-to-DDR transfer, the first bandwidth measurement, the DDR-to-host transfer,
the second bandwidth measurement, the sentinel check (which `return -1`s directly,
skipping `release_buf`), the `memcmp` against the expected pattern (one
`num_errors++` on mismatch), and finally the `release_buf` label. -/
def run_post_checks (env : TestEnv) : TestOutcome :=
  if ¬ env.allocOk then { ret := some 0, released := true, errIncr := 1 }
  else if ¬ env.iovaOk then { ret := some 0, released := true, errIncr := 1 }
  else if (dma_transfer env.modeShift .host_to_ddr (env.iova ||| env.hostMask) 0
      (dma_len env.transfer_size)).2 then
    { ret := none, released := false, errIncr := 0 }
  else
    let h2a_bw := get_bandwidth env.maxTrpt .host_to_ddr env.h2aRdSample env.h2aWrSample
    if (dma_transfer env.modeShift .ddr_to_host 0 (env.iova ||| env.hostMask)
        (dma_len env.transfer_size)).2 then
      { ret := none, released := false, errIncr := 0 }
    else
      let a2h_bw := get_bandwidth env.maxTrpt .ddr_to_host env.a2hRdSample env.a2hWrSample
      if feq a2h_bw (-1) || feq h2a_bw (-1) then
        { ret := some (-1), released := false, errIncr := 0 }
      else
        let num_errors : ℤ := if memcmp_ne env.finalBuf env.transfer_size then 1 else 0
        { ret := some num_errors, released := true, errIncr := 0 }

/-- run_basic_ddr_dma_test (dma.c lines 284-369).  The entry asserts: the
transfer size must be a multiple of 64 (line 297); in ASE mode the transfer size
is checked against `TEST_BUFFER_SIZE_ASE` (line 300), while in hardware mode the
assert at line 302 reads the still-uninitialized `test_buffer_size`, modelled by
the indeterminate `env.tbsJunk`.  A fired assert aborts the process (`ret = none`,
nothing released). -/
def run_basic_ddr_dma_test (env : TestEnv) : TestOutcome :=
  if ¬ (env.transfer_size % 64 = 0) then { ret := none, released := false, errIncr := 0 }
  else if env.isAse then
    if ¬ (env.transfer_size ≤ TEST_BUFFER_SIZE_ASE) then
      { ret := none, released := false, errIncr := 0 }
    else run_post_checks env
  else
    if ¬ (env.tbsJunk ≤ TEST_BUFFER_SIZE_HW) then
      { ret := none, released := false, errIncr := 0 }
    else run_post_checks env

/-- A counter sample with valid-cycle count 1 and total-cycle count 1, giving
uptime 1 and hence bandwidth `maxTrpt / 1000`. -/
def goodSample : ℕ := 2 ^ 20 + 1

/-- A fully passing environment: ASE mode, 64-byte transfer, all library calls
succeed, both bandwidth measurements healthy (uptime 1, `maxTrpt = 10000`, so
10 GB/s each), and the final buffer content equal to the expected pattern. -/
def passEnv : TestEnv where
  isAse := true
  tbsJunk := 0
  transfer_size := 64
  allocOk := true
  iovaOk := true
  iova := 0
  hostMask := 0
  modeShift := 26
  maxTrpt := 10000
  h2aRdSample := goodSample
  h2aWrSample := goodSample
  a2hRdSample := goodSample
  a2hWrSample := goodSample
  finalBuf := expectedByte

/-- `passEnv` with a final buffer differing from the expected pattern at exactly
two byte positions (bytes 0 and 8). -/
def twoMismatchEnv : TestEnv :=
  { passEnv with
    finalBuf := fun j => if j = 0 then 1 else if j = 8 then 2 else expectedByte j }

/-- `passEnv` whose DDR-to-host read-side counter sample has valid-cycle count 0
and total-cycle count 1: read bandwidth 0 GB/s, below the 8.2 GB/s minimum. -/
def bwFailEnv : TestEnv := { passEnv with a2hRdSample := 2 ^ 20 }

/-- `passEnv` whose host-to-DDR read-side counter sample is below the minimum. -/
def bwFailEnvH2a : TestEnv := { passEnv with h2aRdSample := 2 ^ 20 }

/-- `passEnv` with a failing buffer allocation. -/
def allocFailEnv : TestEnv := { passEnv with allocOk := false }

/-- Hardware mode, transfer size above the 2048 KiB cap, leftover stack value 0
in the uninitialized `test_buffer_size`, and a failing allocation so the model
stops right after the (buggy) validation. -/
def hwOversizeEnv : TestEnv :=
  { passEnv with
    isAse := false
    tbsJunk := 0
    transfer_size := TEST_BUFFER_SIZE_HW + 64
    allocOk := false }

/-- Hardware mode, in-range 64-byte transfer size, but a large leftover stack
value in the uninitialized `test_buffer_size`. -/
def hwJunkEnv : TestEnv :=
  { passEnv with isAse := false, tbsJunk := 4294967295 }

/-- ASE mode, the spec's own 2048 KiB scenario size, failing allocation so the
model stops right after the validation. -/
def oversize2MEnv : TestEnv :=
  { passEnv with transfer_size := 2097152, allocOk := false }

/-- When both device addresses are 64-byte aligned, no assert fires in
`dma_transfer` (the `send_descriptor` target `8 * DMA_CSR_IDX_SRC_ADDR = 40` is
8-byte aligned, so its assert cannot fire either). -/
theorem dma_transfer_snd_eq_false (sh : ℕ) (m : e_dma_mode) (src dest len : ℕ)
    (h1 : src % 64 = 0) (h2 : dest % 64 = 0) :
    (dma_transfer sh m src dest len).2 = false := by
  simp [dma_transfer, send_descriptor, DMA_CSR_IDX_SRC_ADDR, h1, h2]

/-- The `memcmp` outcome is clean exactly when the byte-level mismatch count is
zero. -/
theorem memcmp_ne_eq_false_iff (buf : ℕ → ℕ) (n : ℕ) :
    memcmp_ne buf n = false ↔ mismatchCount buf n = 0 := by
  simp [memcmp_ne, mismatchCount, List.countP_eq_zero, List.any_eq_false]

/-- On any run whose size asserts pass, whose library calls succeed and whose
device addresses are aligned, `run_basic_ddr_dma_test` reaches the bandwidth
sentinel check: it returns `-1` without releasing the buffer when either
measurement compares equal to `-1`, and otherwise reports the `memcmp` outcome
and releases the buffer. -/
theorem run_reaches_bw_check (env : TestEnv)
    (hmod : env.transfer_size % 64 = 0)
    (hase : env.isAse = true → env.transfer_size ≤ TEST_BUFFER_SIZE_ASE)
    (hhw : env.isAse = false → env.tbsJunk ≤ TEST_BUFFER_SIZE_HW)
    (halloc : env.allocOk = true) (hiova : env.iovaOk = true)
    (halign : (env.iova ||| env.hostMask) % 64 = 0) :
    run_basic_ddr_dma_test env =
      if feq (get_bandwidth env.maxTrpt .ddr_to_host env.a2hRdSample env.a2hWrSample) (-1)
         || feq (get_bandwidth env.maxTrpt .host_to_ddr env.h2aRdSample env.h2aWrSample) (-1)
      then { ret := some (-1), released := false, errIncr := 0 }
      else { ret := some (if memcmp_ne env.finalBuf env.transfer_size then 1 else 0),
             released := true, errIncr := 0 } := by
  have hd1 : (dma_transfer env.modeShift .host_to_ddr (env.iova ||| env.hostMask) 0
      (dma_len env.transfer_size)).2 = false :=
    dma_transfer_snd_eq_false _ _ _ _ _ halign (by decide)
  have hd2 : (dma_transfer env.modeShift .ddr_to_host 0 (env.iova ||| env.hostMask)
      (dma_len env.transfer_size)).2 = false :=
    dma_transfer_snd_eq_false _ _ _ _ _ (by decide) halign
  cases hA : env.isAse with
  | true =>
      simp only [run_basic_ddr_dma_test, run_post_checks, hmod, hase hA, hA,
        halloc, hiova, hd1, hd2, not_true, if_false, if_true, ite_true, ite_false]
      split <;> simp_all
  | false =>
      simp only [run_basic_ddr_dma_test, run_post_checks, hmod, hhw hA, hA,
        halloc, hiova, hd1, hd2, not_true, if_false, if_true, ite_true, ite_false]
      split <;> simp_all

/-- Evaluation: a counter sample with valid-cycle count 1 and total-cycle
count 1 on both sides gives 10 GB/s on both sides under `maxTrpt = 10000`,
hence the average 10 GB/s is returned. -/
theorem gb_eval_good (m : e_dma_mode) :
    get_bandwidth 10000 m goodSample goodSample = some 10 := by
  have h1 : rd_src_valid_cnt 1048577 = 1 := by decide
  have h2 : rd_src_clk_cnt 1048577 = 1 := by decide
  have h3 : wr_dest_valid_cnt 1048577 = 1 := by decide
  have h4 : wr_dest_clk_cnt 1048577 = 1 := by decide
  norm_num [get_bandwidth, fdiv, flt, goodSample, h1, h2, h3, h4, MIN_TRPT_GBPS]

/-- Evaluation: a read-side sample with valid-cycle count 0 and total-cycle
count 1 yields read bandwidth 0 GB/s, below the minimum: the sentinel is
returned whatever the write-side sample is. -/
theorem gb_eval_readZeroValid (m : e_dma_mode) (wr : ℕ) :
    get_bandwidth 10000 m (2 ^ 20) wr = some (-1) := by
  have h1 : rd_src_valid_cnt 1048576 = 0 := by decide
  have h2 : rd_src_clk_cnt 1048576 = 1 := by decide
  norm_num [get_bandwidth, fdiv, flt, h1, h2, MIN_TRPT_GBPS]

/-- Evaluation helper: the sentinel compares equal to -1. -/
theorem feq_neg1 : feq (some (-1)) (-1) = true := by norm_num [feq]

/-- Evaluation helper: the healthy 10 GB/s average does not compare equal
to -1. -/
theorem feq_ten : feq (some 10) (-1) = false := by norm_num [feq]

/-- Evaluation helper: the read-bandwidth expression at a sample with
valid-cycle count 0 and total-cycle count 1 is below the minimum threshold. -/
theorem lowReadBw :
    (rd_src_valid_cnt (2 ^ 20) : ℚ) / (rd_src_clk_cnt (2 ^ 20) : ℚ) * 10000 / 1000
      < MIN_TRPT_GBPS := by
  have h1 : rd_src_valid_cnt 1048576 = 0 := by decide
  have h2 : rd_src_clk_cnt 1048576 = 1 := by decide
  norm_num [h1, h2, MIN_TRPT_GBPS]

/-- C1 counterexample: a final buffer differing from the expected pattern at
exactly two byte positions makes `run_basic_ddr_dma_test` return 1, not the
byte-level mismatch count 2: the return value is not the number of differing
bytes. -/
theorem C1_cex :
    mismatchCount twoMismatchEnv.finalBuf twoMismatchEnv.transfer_size = 2 ∧
    (run_basic_ddr_dma_test twoMismatchEnv).ret = some 1 ∧
    (run_basic_ddr_dma_test twoMismatchEnv).ret ≠
      some (mismatchCount twoMismatchEnv.finalBuf twoMismatchEnv.transfer_size) := by
  have hgbA : get_bandwidth twoMismatchEnv.maxTrpt .ddr_to_host
      twoMismatchEnv.a2hRdSample twoMismatchEnv.a2hWrSample = some 10 :=
    gb_eval_good .ddr_to_host
  have hgbH : get_bandwidth twoMismatchEnv.maxTrpt .host_to_ddr
      twoMismatchEnv.h2aRdSample twoMismatchEnv.h2aWrSample = some 10 :=
    gb_eval_good .host_to_ddr
  have hrun := run_reaches_bw_check twoMismatchEnv (by decide) (fun _ => by decide)
    (fun _ => by decide) (by decide) (by decide) (by decide)
  rw [hgbA, hgbH, feq_ten] at hrun
  simp only [Bool.or_self, if_false, Bool.false_eq_true] at hrun
  refine ⟨by decide, ?_, ?_⟩
  · rw [hrun]
    decide
  · rw [hrun]
    decide

/-- C1 (amended): when the data-integrity comparison is reached, the return
value of `run_basic_ddr_dma_test` is 0 if every compared byte matches the
expected ascending pattern and 1 if at least one byte differs — a pass/fail
indicator of the single `memcmp`, not a per-byte mismatch count. -/
theorem C1_indicator (env : TestEnv)
    (hmod : env.transfer_size % 64 = 0)
    (hase : env.isAse = true → env.transfer_size ≤ TEST_BUFFER_SIZE_ASE)
    (hhw : env.isAse = false → env.tbsJunk ≤ TEST_BUFFER_SIZE_HW)
    (halloc : env.allocOk = true) (hiova : env.iovaOk = true)
    (halign : (env.iova ||| env.hostMask) % 64 = 0)
    (hbw : (feq (get_bandwidth env.maxTrpt .ddr_to_host env.a2hRdSample
          env.a2hWrSample) (-1)
        || feq (get_bandwidth env.maxTrpt .host_to_ddr env.h2aRdSample
          env.h2aWrSample) (-1)) = false) :
    (run_basic_ddr_dma_test env).ret =
      some (if mismatchCount env.finalBuf env.transfer_size = 0 then 0 else 1) := by
  rw [run_reaches_bw_check env hmod hase hhw halloc hiova halign]
  cases h : memcmp_ne env.finalBuf env.transfer_size with
  | false =>
      have h0 := (memcmp_ne_eq_false_iff env.finalBuf env.transfer_size).mp h
      simp [hbw, h, h0]
  | true =>
      have h0 : mismatchCount env.finalBuf env.transfer_size ≠ 0 := by
        intro hc
        have := (memcmp_ne_eq_false_iff env.finalBuf env.transfer_size).mpr hc
        simp [h] at this
      simp [hbw, h, h0]

/-- C1 witness: on the fully passing environment the reached comparison reports
0 mismatches and the function returns 0. -/
theorem C1_indicator_witness :
    (run_basic_ddr_dma_test passEnv).ret =
      some (if mismatchCount passEnv.finalBuf passEnv.transfer_size = 0
            then 0 else 1) :=
  C1_indicator passEnv (by decide) (fun _ => by decide) (fun _ => by decide)
    (by decide) (by decide) (by decide)
    (by simp [passEnv, gb_eval_good, feq_ten])

/-- C2: on the bandwidth-sentinel abort path (here the DDR-to-host measurement
is below the 8.2 GB/s minimum) `run_basic_ddr_dma_test` executes `return -1`
directly, and `fpgaReleaseBuffer` is never invoked, although the buffer was
successfully allocated: the release-on-every-exit-path claim fails on this
path. -/
theorem C2_bug :
    (run_basic_ddr_dma_test bwFailEnv).ret = some (-1) ∧
    (run_basic_ddr_dma_test bwFailEnv).released = false := by
  have hgbA : get_bandwidth bwFailEnv.maxTrpt .ddr_to_host
      bwFailEnv.a2hRdSample bwFailEnv.a2hWrSample = some (-1) :=
    gb_eval_readZeroValid .ddr_to_host _
  have hrun := run_reaches_bw_check bwFailEnv (by decide) (fun _ => by decide)
    (fun _ => by decide) (by decide) (by decide) (by decide)
  rw [hgbA, feq_neg1] at hrun
  simp only [Bool.true_or, if_true] at hrun
  exact ⟨by rw [hrun], by rw [hrun]⟩

/-- C3: at a raw performance-counter sample of 0 the extracted total-cycle
count is 0, yet `get_bandwidth` performs its division unguarded: the result is
the propagated non-finite IEEE value (modelled `none`), not a distinguished
"no activity" report. -/
theorem C3_bug :
    rd_src_clk_cnt 0 = 0 ∧ wr_dest_clk_cnt 0 = 0 ∧
    get_bandwidth 10000 .host_to_ddr 0 0 = none := by
  refine ⟨by decide, by decide, ?_⟩
  have h1 : rd_src_valid_cnt 0 = 0 := by decide
  have h2 : rd_src_clk_cnt 0 = 0 := by decide
  have h3 : wr_dest_valid_cnt 0 = 0 := by decide
  have h4 : wr_dest_clk_cnt 0 = 0 := by decide
  norm_num [get_bandwidth, fdiv, flt, h1, h2, h3, h4]

/-- C4: (a) whenever the read-side sample has a nonzero total-cycle count and
either the derived read bandwidth or the (well-defined) derived write bandwidth
is below `MIN_TRPT_GBPS`, `get_bandwidth` returns the sentinel `-1`;
(b) whenever either of the two `get_bandwidth` results of the round-trip test is
the sentinel `-1`, `run_basic_ddr_dma_test` returns `-1` instead of a
byte-comparison outcome. -/
theorem C4_sentinel :
    (∀ (maxTrpt : ℚ) (m : e_dma_mode) (rd wr : ℕ),
        rd_src_clk_cnt rd ≠ 0 →
        ((rd_src_valid_cnt rd : ℚ) / (rd_src_clk_cnt rd : ℚ) * maxTrpt / 1000
            < MIN_TRPT_GBPS ∨
         (wr_dest_clk_cnt wr ≠ 0 ∧
          (wr_dest_valid_cnt wr : ℚ) / (wr_dest_clk_cnt wr : ℚ) * maxTrpt / 1000
            < MIN_TRPT_GBPS)) →
        get_bandwidth maxTrpt m rd wr = some (-1)) ∧
    (∀ env : TestEnv,
        env.transfer_size % 64 = 0 →
        (env.isAse = true → env.transfer_size ≤ TEST_BUFFER_SIZE_ASE) →
        (env.isAse = false → env.tbsJunk ≤ TEST_BUFFER_SIZE_HW) →
        env.allocOk = true → env.iovaOk = true →
        (env.iova ||| env.hostMask) % 64 = 0 →
        (get_bandwidth env.maxTrpt .ddr_to_host env.a2hRdSample env.a2hWrSample
            = some (-1) ∨
         get_bandwidth env.maxTrpt .host_to_ddr env.h2aRdSample env.h2aWrSample
            = some (-1)) →
        (run_basic_ddr_dma_test env).ret = some (-1)) := by
  constructor
  · intro maxTrpt m rd wr hclk hbelow
    have hcast : (rd_src_clk_cnt rd : ℚ) ≠ 0 := Nat.cast_ne_zero.mpr hclk
    by_cases hr : (rd_src_valid_cnt rd : ℚ) / (rd_src_clk_cnt rd : ℚ) * maxTrpt / 1000
        < MIN_TRPT_GBPS
    · simp [get_bandwidth, fdiv, flt, hcast, hr]
    · rcases hbelow with h | ⟨hwclk, hw⟩
      · exact absurd h hr
      · have hwcast : (wr_dest_clk_cnt wr : ℚ) ≠ 0 := Nat.cast_ne_zero.mpr hwclk
        simp [get_bandwidth, fdiv, flt, hcast, hwcast, hr, hw]
  · intro env hmod hase hhw halloc hiova halign hsent
    rw [run_reaches_bw_check env hmod hase hhw halloc hiova halign]
    rcases hsent with h | h <;> simp [h, feq]

/-- C4 witness: a read-side sample with valid-cycle count 0 and total-cycle
count 1 yields the sentinel, and a run whose host-to-DDR measurement is that
sentinel returns -1. -/
theorem C4_sentinel_witness :
    get_bandwidth 10000 .host_to_ddr (2 ^ 20) goodSample = some (-1) ∧
    (run_basic_ddr_dma_test bwFailEnvH2a).ret = some (-1) :=
  ⟨C4_sentinel.1 10000 .host_to_ddr (2 ^ 20) goodSample (by decide)
      (Or.inl lowReadBw),
   C4_sentinel.2 bwFailEnvH2a (by decide) (fun _ => by decide) (fun _ => by decide)
      (by decide) (by decide) (by decide)
      (Or.inr (gb_eval_readZeroValid .host_to_ddr bwFailEnvH2a.h2aWrSample))⟩

/-- C5 counterexample: a run whose buffer allocation fails returns 0 — exactly
the return value of a fully passing run — so the return value does not
distinguish this fatal device error from a pass (the failure is only recorded
in the process-wide error counter). -/
theorem C5_cex :
    (run_basic_ddr_dma_test allocFailEnv).ret = some 0 ∧
    (run_basic_ddr_dma_test allocFailEnv).errIncr = 1 ∧
    (run_basic_ddr_dma_test passEnv).ret = some 0 := by
  have hgbA : get_bandwidth passEnv.maxTrpt .ddr_to_host
      passEnv.a2hRdSample passEnv.a2hWrSample = some 10 := gb_eval_good .ddr_to_host
  have hgbH : get_bandwidth passEnv.maxTrpt .host_to_ddr
      passEnv.h2aRdSample passEnv.h2aWrSample = some 10 := gb_eval_good .host_to_ddr
  have hrun := run_reaches_bw_check passEnv (by decide) (fun _ => by decide)
    (fun _ => by decide) (by decide) (by decide) (by decide)
  rw [hgbA, hgbH, feq_ten] at hrun
  simp only [Bool.or_self, if_false, Bool.false_eq_true] at hrun
  refine ⟨by decide, by decide, ?_⟩
  rw [hrun]
  decide

/-- C5 (amended): on a buffer-allocation failure or a device-address lookup
failure `run_basic_ddr_dma_test` aborts without retry, increments the
process-wide error counter once, jumps to the buffer-release label (the release
call is executed), and returns 0 — its mismatch counter — so the return value
does not distinguish the failed run from a passing run; propagation upward is
via the process-wide counter and the printed error only. -/
theorem C5_fatal_path (env : TestEnv)
    (hmod : env.transfer_size % 64 = 0)
    (hase : env.isAse = true → env.transfer_size ≤ TEST_BUFFER_SIZE_ASE)
    (hhw : env.isAse = false → env.tbsJunk ≤ TEST_BUFFER_SIZE_HW)
    (hfail : env.allocOk = false ∨ (env.allocOk = true ∧ env.iovaOk = false)) :
    run_basic_ddr_dma_test env = { ret := some 0, released := true, errIncr := 1 } := by
  have hpost : run_post_checks env = { ret := some 0, released := true, errIncr := 1 } := by
    rcases hfail with h | ⟨h1, h2⟩
    · simp [run_post_checks, h]
    · simp [run_post_checks, h1, h2]
  cases hA : env.isAse with
  | true => simp [run_basic_ddr_dma_test, hmod, hase hA, hA, hpost]
  | false => simp [run_basic_ddr_dma_test, hmod, hhw hA, hA, hpost]

/-- C5 witness: the allocation-failure environment takes the fatal path. -/
theorem C5_fatal_path_witness :
    run_basic_ddr_dma_test allocFailEnv =
      { ret := some 0, released := true, errIncr := 1 } :=
  C5_fatal_path allocFailEnv (by decide) (fun _ => by decide) (fun _ => by decide)
    (Or.inl (by decide))

/-- C6: in hardware mode the capacity assert reads the uninitialized
`test_buffer_size`, not the requested transfer size: an oversized request
(2048 KiB + 64 B) passes validation and reaches buffer allocation when the
leftover value is small, while an in-range 64-byte request is rejected by the
same assert when the leftover value is large. -/
theorem C6_bug :
    TEST_BUFFER_SIZE_HW < hwOversizeEnv.transfer_size ∧
    (run_basic_ddr_dma_test hwOversizeEnv).ret = some 0 ∧
    hwJunkEnv.transfer_size ≤ TEST_BUFFER_SIZE_HW ∧
    (run_basic_ddr_dma_test hwJunkEnv).ret = none := by
  decide

/-- C7: a descriptor submission whose device source or destination address is
not 64-byte aligned makes `dma_transfer` fail its defensive assert with an
empty register-write trace (no register write was performed); under the
alignment precondition no assert fires. -/
theorem C7_alignment (sh : ℕ) (m : e_dma_mode) (src dest len : ℕ) :
    (¬ (src % 64 = 0) ∨ ¬ (dest % 64 = 0) →
      dma_transfer sh m src dest len = ([], true)) ∧
    (src % 64 = 0 → dest % 64 = 0 → (dma_transfer sh m src dest len).2 = false) := by
  constructor
  · intro h
    rcases h with h | h
    · simp [dma_transfer, h]
    · by_cases h1 : src % 64 = 0
      · simp [dma_transfer, h1, h]
      · simp [dma_transfer, h1]
  · intro h1 h2
    exact dma_transfer_snd_eq_false sh m src dest len h1 h2

/-- C7 witness: a misaligned source (100) aborts with no writes; aligned
addresses fire no assert. -/
theorem C7_alignment_witness :
    dma_transfer 26 .host_to_ddr 100 0 4 = ([], true) ∧
    (dma_transfer 26 .host_to_ddr 64 128 4).2 = false :=
  ⟨(C7_alignment 26 .host_to_ddr 100 0 4).1 (Or.inl (by decide)),
   (C7_alignment 26 .host_to_ddr 64 128 4).2 (by decide) (by decide)⟩

/-- The spec's claimed single descriptor submission: the four descriptor fields
written at consecutive 8-byte offsets from the descriptor base
`8 * DMA_CSR_IDX_SRC_ADDR` — the source address masked to its low 32 bits, the
destination address masked to its low 32 bits, the length in lines, and the
control word `0x80000000 | (mode << MODE_SHIFT)` (a uint32). -/
def descSubmission (sh : ℕ) (m : e_dma_mode) (src dest len : ℕ) : List RegWrite :=
  [⟨8 * DMA_CSR_IDX_SRC_ADDR, src &&& MASK_FOR_32BIT_ADDR⟩,
   ⟨8 * DMA_CSR_IDX_SRC_ADDR + 8, dest &&& MASK_FOR_32BIT_ADDR⟩,
   ⟨8 * DMA_CSR_IDX_SRC_ADDR + 16, len % 2 ^ 32⟩,
   ⟨8 * DMA_CSR_IDX_SRC_ADDR + 24, (0x80000000 ||| (modeVal m <<< sh)) % 2 ^ 32⟩]

/-- C8: for an aligned transfer the register writes issued before polling are
exactly two consecutive submissions of the same four-field descriptor. -/
theorem C8_descriptor_writes (sh : ℕ) (m : e_dma_mode) (src dest len : ℕ)
    (h1 : src % 64 = 0) (h2 : dest % 64 = 0) :
    (dma_transfer sh m src dest len).1 =
      descSubmission sh m src dest len ++ descSubmission sh m src dest len := by
  simp [dma_transfer, send_descriptor, descSubmission, DMA_CSR_IDX_SRC_ADDR, h1, h2]

/-- C8 witness: concrete aligned transfer. -/
theorem C8_descriptor_writes_witness :
    (dma_transfer 26 .ddr_to_host 64 0 5).1 =
      descSubmission 26 .ddr_to_host 64 0 5 ++ descSubmission 26 .ddr_to_host 64 0 5 :=
  C8_descriptor_writes 26 .ddr_to_host 64 0 5 (by decide) (by decide)

/-- C9: the valid-cycle and total-cycle counts extracted from any raw
performance-counter sample all lie in the range 0 .. 2^20 - 1. -/
theorem C9_mask_range (s : ℕ) :
    rd_src_valid_cnt s ≤ 2 ^ 20 - 1 ∧ rd_src_clk_cnt s ≤ 2 ^ 20 - 1 ∧
    wr_dest_valid_cnt s ≤ 2 ^ 20 - 1 ∧ wr_dest_clk_cnt s ≤ 2 ^ 20 - 1 := by
  refine ⟨?_, ?_, ?_, ?_⟩ <;>
    · simp only [rd_src_valid_cnt, rd_src_clk_cnt, wr_dest_valid_cnt, wr_dest_clk_cnt]
      exact le_trans Nat.and_le_right (by decide)

/-- Claim-side predicate (C10): every byte offset touched by the pattern-fill
loop (64-bit word `i` occupies bytes `8*i .. 8*i+7`, for
`i < test_buffer_word_size ts`) and by the final byte comparison (bytes
`0 .. ts-1`) lies inside the `DMA_BUFFER_SIZE`-byte host buffer. -/
def buffer_accesses_in_bounds (ts : ℕ) : Prop :=
  (∀ i < test_buffer_word_size ts, 8 * i + 7 < DMA_BUFFER_SIZE) ∧
  ∀ j < ts, j < DMA_BUFFER_SIZE

/-- C10: the transfer size 2048 KiB passes every precondition check (it is a
multiple of 64 and within the advertised cap, and the model run proceeds past
validation to allocation), yet the pattern-fill loop touches byte offsets far
beyond the `DMA_BUFFER_SIZE = 1024*1024`-byte host buffer: word index 262143
occupies bytes 2097144 .. 2097151. -/
theorem C10_bug :
    2097152 % 64 = 0 ∧ 2097152 ≤ TEST_BUFFER_SIZE_ASE ∧
    (run_basic_ddr_dma_test oversize2MEnv).ret = some 0 ∧
    ¬ buffer_accesses_in_bounds 2097152 := by
  refine ⟨by decide, by decide, by decide, fun h => ?_⟩
  exact absurd (h.1 262143 (by decide)) (by decide)
